import Mathlib

/-!
Verification model of the transaction reporting pipeline.

The repository contains several near-duplicate implementations of the same
streaming CSV aggregation idea.  Each Python module is embedded as a Lean
namespace; definitions are direct translations of the corresponding Python
functions:

* `Core`                — `src/core.py` (`_safe_int`, `aggregate_transactions`)
* `TransactionReporter` — `src/transaction_reporter.py` (`generate_structured_report`)
* `Transactions`        — `src/transactions/aggregator.py` (`_parse_amount`, `compute_report`)
  and `src/transactions/reader.py` (`stream_transactions`)
* `Reporting`           — `src/reporting/core.py` (`aggregate_transactions`)
* `Reader`              — `src/reader.py` (`Transaction`, `TransactionReader`)
* `Aggregator`          — `src/aggregator.py` (`MetricsAggregator`)

Modelling conventions:

* A CSV row as produced by `csv.DictReader` maps each header field name to
  either a string or Python `None` (`None` is what `DictReader` stores for
  missing trailing fields, via its default `restval`).  We model a row as an
  association list `List (String × Option String)`; an absent key models a
  column that does not appear in the header at all.
* Python exceptions are modelled with `Option`/`Except`: `none` (or `.error`)
  means the Python code raises at that point.
* Python `int(s)` is modelled by `pyInt`, which accepts surrounding
  whitespace, an optional sign and a non-empty ASCII digit run with
  single underscores between digits, exactly the cases `int` accepts on
  the inputs this program can meet.
* Float results (`avg_amount`) are modelled in `ℚ`; every average value the
  program's own tests pin down (`600.0`, `0.0`) is exactly representable, so
  the rational model agrees with the IEEE computation there.
-/

/-- One CSV row as yielded by `csv.DictReader`: field name to stored value,
`some none` standing for Python `None` (missing trailing field). -/
abbrev RawRecord := List (String × Option String)

/-- Association-list lookup: `none` when the key is absent from the row. -/
def RawRecord.lookup (r : RawRecord) (k : String) : Option (Option String) :=
  (List.find? (fun p => p.1 == k) r).map Prod.snd

/-- Python `row.get(k)`: `None` both when the key is absent and when the
stored value is `None`. -/
def pyGet (r : RawRecord) (k : String) : Option String :=
  (RawRecord.lookup r k).bind id

/-- Python `row.get(k, d)`: the default applies only when the key is absent;
a stored `None` is returned as `None`. -/
def pyGetD (r : RawRecord) (k : String) (d : String) : Option String :=
  match RawRecord.lookup r k with
  | none => some d
  | some v => v

/-- Python `x or d` on an optional string: `None` and `""` are falsy. -/
def pyOr (v : Option String) (d : String) : String :=
  match v with
  | none => d
  | some s => if s = "" then d else s

/-- Python whitespace as tested by `str.strip()` and `int` on ASCII input. -/
def pyIsSpace (c : Char) : Bool :=
  c = ' ' || c = '\t' || c = '\n' || c = '\r' || c = '\x0b' || c = '\x0c'

/-- Python `s.strip()`: drop whitespace from both ends. -/
def pyStrip (s : String) : String :=
  ⟨(((s.toList.dropWhile pyIsSpace).reverse.dropWhile pyIsSpace).reverse)⟩

/-- Tail of a digit run: an underscore must be followed by a digit. -/
def isPyDigitRunTail : List Char → Bool
  | [] => true
  | '_' :: rest =>
    match rest with
    | [] => false
    | c :: rest2 => c.isDigit && isPyDigitRunTail rest2
  | c :: rest => c.isDigit && isPyDigitRunTail rest

/-- A non-empty ASCII digit run with single underscores allowed between
digits, the body `int` accepts after sign and whitespace handling. -/
def isPyDigitRun : List Char → Bool
  | [] => false
  | c :: rest => c.isDigit && isPyDigitRunTail rest

/-- Numeric value of a digit run, ignoring the underscores. -/
def natOfDigits (cs : List Char) : Nat :=
  cs.foldl (fun n c => if c = '_' then n else n * 10 + (c.toNat - '0'.toNat)) 0

/-- Python `int(s)` on a string: `some n` on success, `none` when `int`
raises `ValueError`. -/
def pyInt (s : String) : Option Int :=
  match (pyStrip s).toList with
  | '+' :: rest => if isPyDigitRun rest then some (natOfDigits rest : Int) else none
  | '-' :: rest => if isPyDigitRun rest then some (-(natOfDigits rest : Int)) else none
  | cs => if isPyDigitRun cs then some (natOfDigits cs : Int) else none

/-- One row as built by `csv.DictReader`: header names zipped with the row's
values; a missing trailing field gets the default `restval`, Python `None`. -/
def dictReaderRow : List String → List String → RawRecord
  | [], _ => []
  | h :: hs, [] => (h, none) :: dictReaderRow hs []
  | h :: hs, v :: vs => (h, some v) :: dictReaderRow hs vs

/-- `csv.DictReader` over a parsed table: the first row is the header, every
later row becomes a `RawRecord`; an empty table yields no rows (and a `None`
`fieldnames`). -/
def dictReaderRows : List (List String) → List RawRecord
  | [] => []
  | header :: rest => rest.map (dictReaderRow header)

/-- The running counters shared by the aggregator variants. -/
structure Metrics where
  total_rows : Nat
  completed : Nat
  failed : Nat
  sum_completed_amount : Int
  sum_all_amount : Int
  invalid_amounts : Nat
deriving Repr, DecidableEq

/-- The all-zero initial accumulator state. -/
def Metrics.init : Metrics :=
  { total_rows := 0, completed := 0, failed := 0
    sum_completed_amount := 0, sum_all_amount := 0, invalid_amounts := 0 }

namespace Core

/-- `src/core.py` `_safe_int`: `int(value)` with every exception mapped to 0. -/
def _safe_int (value : String) : Int :=
  (pyInt value).getD 0

/-- Loop body of `src/core.py` `aggregate_transactions`, one row. -/
def step (m : Metrics) (row : RawRecord) : Metrics :=
  let status := pyStrip (pyOr (pyGet row "status") "")
  let amount_raw := pyStrip (pyOr (pyGet row "amount_cents") "0")
  let amount := _safe_int amount_raw
  let m1 :=
    if amount_raw ≠ "" ∧ amount = 0 ∧ amount_raw ≠ "0"
    then { m with invalid_amounts := m.invalid_amounts + 1 }
    else m
  let m2 := { m1 with
    total_rows := m1.total_rows + 1
    sum_all_amount := m1.sum_all_amount + amount }
  if status = "completed" then
    { m2 with
      completed := m2.completed + 1
      sum_completed_amount := m2.sum_completed_amount + amount }
  else if status = "failed" then
    { m2 with failed := m2.failed + 1 }
  else m2

/-- `src/core.py` `aggregate_transactions`, counters only (timing dropped). -/
def aggregate_transactions (rows : List RawRecord) : Metrics :=
  rows.foldl step Metrics.init

/-- The `avg_amount` computed at `src/core.py:53`:
`float(sum_all_amount) / total_rows if total_rows > 0 else 0.0`. -/
def avg_amount (m : Metrics) : ℚ :=
  if m.total_rows > 0 then (m.sum_all_amount : ℚ) / (m.total_rows : ℚ) else 0

end Core

namespace TransactionReporter

/-- `src/transaction_reporter.py` `stream_transactions`: yields the
`csv.DictReader` rows unchanged. -/
def stream_transactions (table : List (List String)) : List RawRecord :=
  dictReaderRows table

/-- Loop body of `generate_structured_report`
(src/transaction_reporter.py:41-58).  `row.get(field, default)` keeps a
stored Python `None` (missing trailing field), on which `.strip()` raises an
uncaught `AttributeError`, modelled as `none`.  A present empty string
reaches `int("")`, whose `ValueError` is caught and counted as invalid. -/
def step (m : Metrics) (row : RawRecord) : Option Metrics := do
  let statusRaw ← pyGetD row "status" ""
  let amountRaw ← pyGetD row "amount_cents" "0"
  let status := pyStrip statusRaw
  let amount_raw := pyStrip amountRaw
  let (amount, m1) :=
    match pyInt amount_raw with
    | some a => (a, m)
    | none => ((0 : Int), { m with invalid_amounts := m.invalid_amounts + 1 })
  let m2 := { m1 with
    total_rows := m1.total_rows + 1
    sum_all_amount := m1.sum_all_amount + amount }
  if status = "completed" then
    some { m2 with
      completed := m2.completed + 1
      sum_completed_amount := m2.sum_completed_amount + amount }
  else if status = "failed" then
    some { m2 with failed := m2.failed + 1 }
  else
    some m2

/-- `generate_structured_report` on an already-parsed table: counters of the
report, `none` when the Python function raises while streaming. -/
def generate_structured_report (table : List (List String)) : Option Metrics :=
  (stream_transactions table).foldlM step Metrics.init

end TransactionReporter

namespace Transactions

/-- Counters of the report built by `src/transactions/aggregator.py`;
`rows_invalid` is the `meta` counter of the same name. -/
structure TReport where
  total_rows : Nat
  completed : Nat
  failed : Nat
  sum_completed_amount : Int
  sum_all_amount : Int
  rows_invalid : Nat
deriving Repr, DecidableEq

/-- The all-zero initial state of `compute_report`. -/
def TReport.init : TReport :=
  { total_rows := 0, completed := 0, failed := 0
    sum_completed_amount := 0, sum_all_amount := 0, rows_invalid := 0 }

/-- `src/transactions/aggregator.py` `_parse_amount`: strips and parses,
mapping every exception to 0.  It never raises. -/
def _parse_amount (amount_raw : String) : Int :=
  (pyInt (pyStrip amount_raw)).getD 0

/-- Loop body of `compute_report` (src/transactions/aggregator.py:35-53).
Because `_parse_amount` already swallows every exception and returns 0, the
`except` branch at lines 43-45 is unreachable and `rows_invalid` is never
incremented. -/
def compute_report_step (m : TReport) (row : RawRecord) : TReport :=
  let status := pyStrip (pyOr (pyGet row "status") "")
  let amount_raw := pyStrip (pyOr (pyGet row "amount_cents") "0")
  let amount := _parse_amount amount_raw
  let m2 := { m with
    total_rows := m.total_rows + 1
    sum_all_amount := m.sum_all_amount + amount }
  if status = "completed" then
    { m2 with
      completed := m2.completed + 1
      sum_completed_amount := m2.sum_completed_amount + amount }
  else if status = "failed" then
    { m2 with failed := m2.failed + 1 }
  else m2

/-- `src/transactions/aggregator.py` `compute_report`, counters only. -/
def compute_report (rows : List RawRecord) : TReport :=
  rows.foldl compute_report_step TReport.init

/-- `src/transactions/reader.py` `stream_transactions`: yields the
`csv.DictReader` rows unchanged; an empty file yields the empty sequence
without any error. -/
def stream_transactions (table : List (List String)) : List RawRecord :=
  dictReaderRows table

end Transactions

namespace Reporting

/-- Loop body of `aggregate_transactions` (src/reporting/core.py:22-39).
`useObs` records whether an observability dict was passed; only then is the
`invalid_amounts` counter incremented on a parse failure. -/
def step (useObs : Bool) (m : Metrics) (row : RawRecord) : Metrics :=
  let status := pyStrip (pyOr (pyGet row "status") "")
  let amount_raw := pyStrip (pyOr (pyGet row "amount_cents") "0")
  let amount := (pyInt amount_raw).getD 0
  let m1 :=
    if (pyInt amount_raw).isNone ∧ useObs = true
    then { m with invalid_amounts := m.invalid_amounts + 1 }
    else m
  let m2 := { m1 with
    total_rows := m1.total_rows + 1
    sum_all_amount := m1.sum_all_amount + amount }
  if status = "completed" then
    { m2 with
      completed := m2.completed + 1
      sum_completed_amount := m2.sum_completed_amount + amount }
  else if status = "failed" then
    { m2 with failed := m2.failed + 1 }
  else m2

/-- `src/reporting/core.py` `aggregate_transactions`, counters only;
`invalid_amounts` is meaningful when `useObs = true`. -/
def aggregate_transactions (useObs : Bool) (rows : List RawRecord) : Metrics :=
  rows.foldl (step useObs) Metrics.init

end Reporting

namespace Reader

/-- `Transaction.amount_cents` (src/reader.py:23-30): `row.get` keeps a
stored Python `None`, on which `.strip()` raises an uncaught
`AttributeError` (the `except` clause only catches `ValueError`), modelled
as `none`; string values parse totally with fallback 0. -/
def Transaction.amount_cents (row : RawRecord) : Option Int :=
  match pyGetD row "amount_cents" "0" with
  | none => none
  | some raw => some ((pyInt (pyStrip raw)).getD 0)

/-- `Transaction.status` (src/reader.py:36-38): same `None` caveat. -/
def Transaction.status (row : RawRecord) : Option String :=
  match pyGetD row "status" "" with
  | none => none
  | some raw => some (pyStrip raw)

/-- `TransactionReader.read` (src/reader.py:56-74) on a parsed table:
raises `ValueError` when `DictReader.fieldnames` is `None`, i.e. the file
has no header row at all; otherwise yields one `RawRecord` per data row. -/
def TransactionReader.read (table : List (List String)) : Except String (List RawRecord) :=
  match table with
  | [] => .error "CSV file is empty or has no header"
  | header :: rest => .ok (rest.map (dictReaderRow header))

end Reader

namespace Aggregator

/-- The mutable fields of `MetricsAggregator` (src/aggregator.py:12-19). -/
structure AggState where
  total_rows : Nat
  completed : Nat
  failed : Nat
  sum_completed_amount : Int
  sum_all_amount : Int
  transactions_processed : Nat
deriving Repr, DecidableEq

/-- `MetricsAggregator.__init__`: all counters zero. -/
def AggState.init : AggState :=
  { total_rows := 0, completed := 0, failed := 0
    sum_completed_amount := 0, sum_all_amount := 0, transactions_processed := 0 }

/-- `MetricsAggregator.process_transaction` (src/aggregator.py:21-37);
`none` models a propagated `AttributeError` from the `Transaction` field
accessors (stored Python `None`), in which case no final report exists. -/
def process_transaction (s : AggState) (row : RawRecord) : Option AggState := do
  let amount ← Reader.Transaction.amount_cents row
  let status ← Reader.Transaction.status row
  let s1 := { s with
    total_rows := s.total_rows + 1
    transactions_processed := s.transactions_processed + 1
    sum_all_amount := s.sum_all_amount + amount }
  if status = "completed" then
    some { s1 with
      completed := s1.completed + 1
      sum_completed_amount := s1.sum_completed_amount + amount }
  else if status = "failed" then
    some { s1 with failed := s1.failed + 1 }
  else
    some s1

/-- `MetricsAggregator.process_transactions`: fold over an iterator. -/
def process_transactions (s : AggState) (rows : List RawRecord) : Option AggState :=
  rows.foldlM process_transaction s

/-- The `avg_amount` computed in `MetricsAggregator.get_metrics`
(src/aggregator.py:54). -/
def avg_amount (s : AggState) : ℚ :=
  if s.total_rows > 0 then (s.sum_all_amount : ℚ) / (s.total_rows : ℚ) else 0

end Aggregator

namespace Core

/-- The trimmed `status` read by the or-default aggregator loops. -/
def rowStatus (row : RawRecord) : String :=
  pyStrip (pyOr (pyGet row "status") "")

/-- The trimmed raw `amount_cents` read by the or-default aggregator loops. -/
def rowAmountRaw (row : RawRecord) : String :=
  pyStrip (pyOr (pyGet row "amount_cents") "0")

/-- The coerced amount of a row in `src/core.py`. -/
def rowAmount (row : RawRecord) : Int :=
  _safe_int (rowAmountRaw row)

/-- 1 when `src/core.py:43` increments `invalid_amounts` on this row. -/
def invalidFlag (row : RawRecord) : Nat :=
  if rowAmountRaw row ≠ "" ∧ rowAmount row = 0 ∧ rowAmountRaw row ≠ "0" then 1 else 0

/-- 1 when the row's trimmed status is exactly `"completed"`. -/
def completedFlag (row : RawRecord) : Nat :=
  if rowStatus row = "completed" then 1 else 0

/-- 1 when the row's trimmed status is exactly `"failed"`. -/
def failedFlag (row : RawRecord) : Nat :=
  if rowStatus row = "failed" then 1 else 0

/-- The row's contribution to `sum_completed_amount`. -/
def completedAmount (row : RawRecord) : Int :=
  if rowStatus row = "completed" then rowAmount row else 0

end Core

namespace Transactions

/-- The coerced amount of a row in `compute_report`: `_parse_amount` of the
already-stripped raw value. -/
def rowAmount (row : RawRecord) : Int :=
  _parse_amount (Core.rowAmountRaw row)

end Transactions

namespace Reporting

/-- 1 when `src/reporting/core.py` increments `invalid_amounts` on this row
(an observability dict was supplied and `int` raised). -/
def invalidFlag (useObs : Bool) (row : RawRecord) : Nat :=
  if (pyInt (Core.rowAmountRaw row)).isNone ∧ useObs = true then 1 else 0

/-- The coerced amount of a row in `src/reporting/core.py`. -/
def rowAmount (row : RawRecord) : Int :=
  (pyInt (Core.rowAmountRaw row)).getD 0

end Reporting

/-- Header of the repository's sample transactions file. -/
def sampleHeader : List String :=
  ["id", "timestamp", "amount_cents", "currency", "status"]

/-- The 5-row sample input (test scenario A): amounts
`1000, -500, 0, 2500, foo`, statuses
`completed, completed, failed, completed, completed`. -/
def sampleTable : List (List String) :=
  [sampleHeader,
   ["1", "2025-01-01T10:00:00Z", "1000", "USD", "completed"],
   ["2", "2025-01-01T10:05:00Z", "-500", "USD", "completed"],
   ["3", "2025-01-01T10:10:00Z", "0", "USD", "failed"],
   ["4", "2025-01-01T10:15:00Z", "2500", "EUR", "completed"],
   ["5", "2025-01-01T10:20:00Z", "foo", "USD", "completed"]]

/-- The sample rows as `csv.DictReader` produces them. -/
def sampleRows : List RawRecord := dictReaderRows sampleTable

/-- Field-wise description of one `src/core.py` loop iteration: every counter
grows by a contribution that depends only on the row. -/
theorem Core.coreStep_fields (m : Metrics) (row : RawRecord) :
    step m row =
      { total_rows := m.total_rows + 1
        completed := m.completed + completedFlag row
        failed := m.failed + failedFlag row
        sum_completed_amount := m.sum_completed_amount + completedAmount row
        sum_all_amount := m.sum_all_amount + rowAmount row
        invalid_amounts := m.invalid_amounts + invalidFlag row } := by
  simp only [step, completedFlag, failedFlag, completedAmount, invalidFlag,
    rowStatus, rowAmountRaw, rowAmount]
  split_ifs <;> simp_all [Metrics.mk.injEq]

/-- Field-wise description of one `compute_report` loop iteration; note that
no contribution to `rows_invalid` exists at all. -/
theorem Transactions.compute_report_step_fields (m : TReport) (row : RawRecord) :
    compute_report_step m row =
      { total_rows := m.total_rows + 1
        completed := m.completed + Core.completedFlag row
        failed := m.failed + Core.failedFlag row
        sum_completed_amount := m.sum_completed_amount +
          (if Core.rowStatus row = "completed" then rowAmount row else 0)
        sum_all_amount := m.sum_all_amount + rowAmount row
        rows_invalid := m.rows_invalid } := by
  simp only [compute_report_step, Core.completedFlag, Core.failedFlag,
    Core.rowStatus, Core.rowAmountRaw, rowAmount]
  split_ifs <;> simp_all [TReport.mk.injEq]

/-- Field-wise description of one `src/reporting/core.py` loop iteration. -/
theorem Reporting.reportingStep_fields (useObs : Bool) (m : Metrics) (row : RawRecord) :
    step useObs m row =
      { total_rows := m.total_rows + 1
        completed := m.completed + Core.completedFlag row
        failed := m.failed + Core.failedFlag row
        sum_completed_amount := m.sum_completed_amount +
          (if Core.rowStatus row = "completed" then rowAmount row else 0)
        sum_all_amount := m.sum_all_amount + rowAmount row
        invalid_amounts := m.invalid_amounts + invalidFlag useObs row } := by
  simp only [step, Core.completedFlag, Core.failedFlag, Core.rowStatus,
    Core.rowAmountRaw, rowAmount, invalidFlag]
  split_ifs <;> simp_all [Metrics.mk.injEq]

/-- When both consumed fields hold real strings, one
`generate_structured_report` iteration succeeds and every counter grows by a
contribution depending only on the row. -/
theorem TransactionReporter.trStep_fields (m : Metrics) (row : RawRecord) (st sa : String)
    (hst : pyGetD row "status" "" = some st)
    (hsa : pyGetD row "amount_cents" "0" = some sa) :
    step m row = some
      { total_rows := m.total_rows + 1
        completed := m.completed + (if pyStrip st = "completed" then 1 else 0)
        failed := m.failed + (if pyStrip st = "failed" then 1 else 0)
        sum_completed_amount := m.sum_completed_amount +
          (if pyStrip st = "completed" then (pyInt (pyStrip sa)).getD 0 else 0)
        sum_all_amount := m.sum_all_amount + (pyInt (pyStrip sa)).getD 0
        invalid_amounts := m.invalid_amounts +
          (if (pyInt (pyStrip sa)).isNone then 1 else 0) } := by
  simp only [step, hst, hsa, Option.bind_eq_bind, Option.some_bind]
  cases hp : pyInt (pyStrip sa) <;>
    · simp only [hp]
      split_ifs <;> simp_all [Metrics.mk.injEq]

/-- A left fold by a right-commutative step is invariant under permutation
of the input list. -/
theorem foldl_perm_eq {α β : Type} (f : β → α → β)
    (hf : ∀ z a b, f (f z a) b = f (f z b) a) :
    ∀ {l1 l2 : List α}, l1.Perm l2 → ∀ z : β, l1.foldl f z = l2.foldl f z := by
  intro l1 l2 p
  induction p with
  | nil => intro z; rfl
  | cons x _ ih => intro z; simpa using ih (f z x)
  | swap x y l => intro z; simp [List.foldl, hf]
  | trans _ _ ih1 ih2 => intro z; rw [ih1, ih2]

/-- `src/core.py`'s loop body is right-commutative. -/
theorem Core.step_comm (m : Metrics) (a b : RawRecord) :
    Core.step (Core.step m a) b = Core.step (Core.step m b) a := by
  simp [Core.coreStep_fields, Metrics.mk.injEq]
  omega

/-- `compute_report`'s loop body is right-commutative. -/
theorem Transactions.compute_report_step_comm (m : Transactions.TReport) (a b : RawRecord) :
    Transactions.compute_report_step (Transactions.compute_report_step m a) b =
      Transactions.compute_report_step (Transactions.compute_report_step m b) a := by
  simp [Transactions.compute_report_step_fields, Transactions.TReport.mk.injEq]
  omega

/-- C1, counterexample: a CSV row whose `amount_cents` field is present but
empty.  `src/transaction_reporter.py`'s `generate_structured_report` reaches
`int("")`, catches the `ValueError` and increments `invalid_amounts` to 1 —
the claim says empty is never counted as invalid. -/
theorem claim_C1_counterexample :
    TransactionReporter.generate_structured_report
        [["amount_cents", "status"], ["", "completed"]] =
      some { total_rows := 1, completed := 1, failed := 0
             sum_completed_amount := 0, sum_all_amount := 0, invalid_amounts := 1 } := by
  decide

/-- C1, amended: a record with an absent `amount_cents` adds 0 to both sums
and leaves `invalid_amounts` unchanged in both `src/core.py` and
`src/transaction_reporter.py`; a record with a present but empty
`amount_cents` does so in `src/core.py`, while
`src/transaction_reporter.py` additionally increments `invalid_amounts`
by 1 (still contributing 0 to both sums). -/
theorem claim_C1_amended (m : Metrics) (row : RawRecord) (st : String) :
    ((pyGet row "amount_cents" = none ∨ pyGet row "amount_cents" = some "") →
      (Core.step m row).sum_all_amount = m.sum_all_amount ∧
      (Core.step m row).sum_completed_amount = m.sum_completed_amount ∧
      (Core.step m row).invalid_amounts = m.invalid_amounts ∧
      (Core.step m row).total_rows = m.total_rows + 1) ∧
    (pyGetD row "status" "" = some st →
      (RawRecord.lookup row "amount_cents" = none →
        ∃ m', TransactionReporter.step m row = some m' ∧
          m'.sum_all_amount = m.sum_all_amount ∧
          m'.sum_completed_amount = m.sum_completed_amount ∧
          m'.invalid_amounts = m.invalid_amounts ∧
          m'.total_rows = m.total_rows + 1) ∧
      (pyGetD row "amount_cents" "0" = some "" →
        ∃ m', TransactionReporter.step m row = some m' ∧
          m'.sum_all_amount = m.sum_all_amount ∧
          m'.sum_completed_amount = m.sum_completed_amount ∧
          m'.invalid_amounts = m.invalid_amounts + 1 ∧
          m'.total_rows = m.total_rows + 1)) := by
  constructor
  · intro h
    have hraw : Core.rowAmountRaw row = "0" := by
      rcases h with h | h <;> simp [Core.rowAmountRaw, h, pyOr] <;> decide
    have hamt : Core.rowAmount row = 0 := by
      simp [Core.rowAmount, hraw, Core._safe_int]
      decide
    have hinv : Core.invalidFlag row = 0 := by
      simp [Core.invalidFlag, hraw]
    have hca : Core.completedAmount row = 0 := by
      simp [Core.completedAmount, hamt]
    simp [Core.coreStep_fields, hamt, hinv, hca]
  · intro hst
    constructor
    · intro habs
      have hsa : pyGetD row "amount_cents" "0" = some "0" := by
        simp [pyGetD, habs]
      refine ⟨_, TransactionReporter.trStep_fields m row st "0" hst hsa, ?_, ?_, ?_, ?_⟩ <;>
        simp <;> first | decide | (intro h; decide)
    · intro hsa
      refine ⟨_, TransactionReporter.trStep_fields m row st "" hst hsa, ?_, ?_, ?_, ?_⟩ <;>
        simp <;> first | decide | (intro h; decide)

/-- C1, witness: the amended statement applied to a concrete absent-amount
record and a concrete empty-amount record. -/
theorem claim_C1_witness :
    ((Core.step Metrics.init [("status", some "completed")]).invalid_amounts
        = Metrics.init.invalid_amounts ∧
     (Core.step Metrics.init [("status", some "completed")]).sum_all_amount
        = Metrics.init.sum_all_amount) ∧
    (∃ m', TransactionReporter.step Metrics.init
        [("amount_cents", some ""), ("status", some "completed")] = some m' ∧
      m'.invalid_amounts = Metrics.init.invalid_amounts + 1) := by
  constructor
  · have h := (claim_C1_amended Metrics.init [("status", some "completed")] "completed").1
      (Or.inl (by decide))
    exact ⟨h.2.2.1, h.1⟩
  · have h := ((claim_C1_amended Metrics.init
        [("amount_cents", some ""), ("status", some "completed")] "completed").2
      (by decide)).2 (by decide)
    obtain ⟨m', hm', _, _, hinv, _⟩ := h
    exact ⟨m', hm', hinv⟩

/-- C2: on a record whose `amount_cents` is the non-numeric text `"foo"`,
`src/transactions/aggregator.py`'s `compute_report` contributes 0 to every
sum and still counts the row in `total_rows` and the status counters, but
leaves `rows_invalid` at 0 — its helper `_parse_amount` swallows the very
exception the caller's `except` clause (and the comment above it) is meant
to count.  `src/reporting/core.py`'s `aggregate_transactions`, cited by the
same claim, does increment the counter by exactly 1. -/
theorem claim_C2_theorem :
    pyInt "foo" = none ∧
    Transactions.compute_report
        [[("amount_cents", some "foo"), ("status", some "completed")]] =
      { total_rows := 1, completed := 1, failed := 0
        sum_completed_amount := 0, sum_all_amount := 0, rows_invalid := 0 } ∧
    Reporting.aggregate_transactions true
        [[("amount_cents", some "foo"), ("status", some "completed")]] =
      { total_rows := 1, completed := 1, failed := 0
        sum_completed_amount := 0, sum_all_amount := 0, invalid_amounts := 1 } := by
  exact ⟨by decide, by decide, by decide⟩

/-- C3, counterexample: one row with amount `"0"` and status `"failed"`.
Then `total_rows = 1 ≠ 0` while `avg_amount = 0/1 = 0.0`, so the claimed
biconditional `total_rows = 0 ⟺ avg_amount = 0.0` fails. -/
theorem claim_C3_counterexample :
    ¬ (((Core.aggregate_transactions
          [[("amount_cents", some "0"), ("status", some "failed")]]).total_rows = 0) ↔
        (Core.avg_amount (Core.aggregate_transactions
          [[("amount_cents", some "0"), ("status", some "failed")]]) = 0)) := by
  have hm : Core.aggregate_transactions
      [[("amount_cents", some "0"), ("status", some "failed")]] =
      { total_rows := 1, completed := 0, failed := 1
        sum_completed_amount := 0, sum_all_amount := 0, invalid_amounts := 0 } := by
    decide
  rw [hm]
  simp [Core.avg_amount]

/-- C3, amended: in `src/core.py` and in `MetricsAggregator.get_metrics`,
`avg_amount` is the exact quotient `sum_all_amount / total_rows` whenever
`total_rows > 0`, and `avg_amount = 0.0` with no division attempted when
`total_rows = 0`; only that one direction of the claimed biconditional
holds (a non-empty input whose amounts sum to 0 also yields `avg = 0.0`). -/
theorem claim_C3_amended (rows : List RawRecord) (s : Aggregator.AggState) :
    (((Core.aggregate_transactions rows).total_rows > 0 →
        Core.avg_amount (Core.aggregate_transactions rows) =
          ((Core.aggregate_transactions rows).sum_all_amount : ℚ) /
            ((Core.aggregate_transactions rows).total_rows : ℚ)) ∧
      ((Core.aggregate_transactions rows).total_rows = 0 →
        Core.avg_amount (Core.aggregate_transactions rows) = 0)) ∧
    ((s.total_rows > 0 →
        Aggregator.avg_amount s = (s.sum_all_amount : ℚ) / (s.total_rows : ℚ)) ∧
      (s.total_rows = 0 → Aggregator.avg_amount s = 0)) := by
  refine ⟨⟨?_, ?_⟩, ?_, ?_⟩ <;> intro h <;>
    simp [Core.avg_amount, Aggregator.avg_amount, h]

/-- C3, witness: the amended statement applied to the 5-row sample input
(positive case) and to the empty aggregator state (zero case). -/
theorem claim_C3_witness :
    (Core.avg_amount (Core.aggregate_transactions sampleRows) =
      ((Core.aggregate_transactions sampleRows).sum_all_amount : ℚ) /
        ((Core.aggregate_transactions sampleRows).total_rows : ℚ)) ∧
    Aggregator.avg_amount Aggregator.AggState.init = 0 :=
  ⟨(claim_C3_amended sampleRows Aggregator.AggState.init).1.1 (by decide),
   (claim_C3_amended sampleRows Aggregator.AggState.init).2.2 (by decide)⟩

/-- C4, counterexample: a CSV row with missing trailing fields.
`csv.DictReader` stores Python `None` for `amount_cents`, on which
`Transaction.amount_cents` (src/reader.py) raises an uncaught
`AttributeError` instead of returning an integer; the full
`generate_structured_report` pipeline of src/transaction_reporter.py
raises on the same input. -/
theorem claim_C4_counterexample :
    Reader.Transaction.amount_cents (dictReaderRow sampleHeader ["9"]) = none ∧
    TransactionReporter.generate_structured_report [sampleHeader, ["9"]] = none := by
  exact ⟨by decide, by decide⟩

/-- C4, amended: coercion is total over absent keys (treated as `"0"`) and
over all present string values (integer result with fallback 0, no
exception); but a missing trailing field — stored as Python `None` by the
CSV layer — makes `Transaction.amount_cents` raise `AttributeError`
(`.strip()` on `None`), which the `except ValueError` clause does not
catch. -/
theorem claim_C4_amended (row : RawRecord) (s : String) :
    (RawRecord.lookup row "amount_cents" = none →
      Reader.Transaction.amount_cents row = some 0) ∧
    (RawRecord.lookup row "amount_cents" = some (some s) →
      ∃ n : Int, Reader.Transaction.amount_cents row = some n) ∧
    (RawRecord.lookup row "amount_cents" = some none →
      Reader.Transaction.amount_cents row = none) := by
  refine ⟨?_, ?_, ?_⟩ <;> intro h <;>
    simp [Reader.Transaction.amount_cents, pyGetD, h]
  decide

/-- C4, witness: the amended statement at an absent key, a present string,
and a present `None`. -/
theorem claim_C4_witness :
    Reader.Transaction.amount_cents [("status", some "completed")] = some 0 ∧
    (∃ n : Int, Reader.Transaction.amount_cents [("amount_cents", some "12")] = some n) ∧
    Reader.Transaction.amount_cents [("amount_cents", (none : Option String))] = none :=
  ⟨(claim_C4_amended [("status", some "completed")] "12").1 (by decide),
   (claim_C4_amended [("amount_cents", some "12")] "12").2.1 (by decide),
   (claim_C4_amended [("amount_cents", (none : Option String))] "12").2.2 (by decide)⟩

/-- C5, counterexample: on a file with no rows at all, the
`stream_transactions` record source of src/transactions/reader.py (and
src/transaction_reporter.py) silently yields the empty sequence, and the
pipeline built on it returns a zero-row report instead of failing. -/
theorem claim_C5_counterexample :
    Transactions.stream_transactions [] = ([] : List RawRecord) ∧
    TransactionReporter.generate_structured_report [] = some Metrics.init := by
  exact ⟨rfl, rfl⟩

/-- C5, amended: only `TransactionReader.read` (src/reader.py) fails on a
header-less input — it raises `ValueError("CSV file is empty or has no
header")` before producing any record, and errors exactly on the empty
table; the `stream_transactions` record sources yield an empty sequence
silently. -/
theorem claim_C5_amended (table : List (List String)) :
    ((∃ e, Reader.TransactionReader.read table = Except.error e) ↔ table = []) ∧
    (table = [] → Transactions.stream_transactions table = []) := by
  constructor
  · constructor
    · rintro ⟨e, he⟩
      cases table with
      | nil => rfl
      | cons h t => simp [Reader.TransactionReader.read] at he
    · rintro rfl
      exact ⟨_, rfl⟩
  · rintro rfl
    rfl

/-- C5, witness: the amended statement applied to the empty table. -/
theorem claim_C5_witness :
    ∃ e, Reader.TransactionReader.read [] = Except.error e :=
  (claim_C5_amended []).1.mpr rfl

/-- C6, counterexample: on the exact 5-record scenario input, the cited
`compute_report` (src/transactions/aggregator.py) reports `rows_invalid`
different from the claimed `invalid_amounts = 1` (it is 0, because the
invalid branch is unreachable). -/
theorem claim_C6_counterexample :
    (Transactions.compute_report sampleRows).rows_invalid ≠ 1 := by
  decide

/-- C6, amended: on the 5-record scenario input the pipelines of
src/core.py and src/transaction_reporter.py produce exactly
`total_rows=5, completed=4, failed=1, sum_completed_amount=3000,
avg_amount=600.0, invalid_amounts=1`; `compute_report` of
src/transactions/aggregator.py produces the same summary but
`rows_invalid = 0`. -/
theorem claim_C6_amended :
    Core.aggregate_transactions sampleRows =
      { total_rows := 5, completed := 4, failed := 1
        sum_completed_amount := 3000, sum_all_amount := 3000, invalid_amounts := 1 } ∧
    Core.avg_amount (Core.aggregate_transactions sampleRows) = 600 ∧
    TransactionReporter.generate_structured_report sampleTable =
      some { total_rows := 5, completed := 4, failed := 1
             sum_completed_amount := 3000, sum_all_amount := 3000, invalid_amounts := 1 } ∧
    Transactions.compute_report sampleRows =
      { total_rows := 5, completed := 4, failed := 1
        sum_completed_amount := 3000, sum_all_amount := 3000, rows_invalid := 0 } := by
  have hm : Core.aggregate_transactions sampleRows =
      { total_rows := 5, completed := 4, failed := 1
        sum_completed_amount := 3000, sum_all_amount := 3000, invalid_amounts := 1 } := by
    decide
  refine ⟨hm, ?_, by decide, by decide⟩
  rw [hm]
  norm_num [Core.avg_amount]

/-- C7: status classification is exact trimmed literal match in both
`src/core.py` and `MetricsAggregator.process_transaction`: a record whose
trimmed status (absent read as empty) is neither `"completed"` nor
`"failed"` — e.g. `"pending"` — is counted in `total_rows` and its amount
added to `sum_all_amount`, while `completed`, `failed` and
`sum_completed_amount` stay unchanged; exact matches increment exactly
their own counter. -/
theorem claim_C7_theorem (m : Metrics) (row : RawRecord)
    (s : Aggregator.AggState) (st a : String) :
    ((Core.rowStatus row ≠ "completed" → Core.rowStatus row ≠ "failed" →
        (Core.step m row).total_rows = m.total_rows + 1 ∧
        (Core.step m row).sum_all_amount = m.sum_all_amount + Core.rowAmount row ∧
        (Core.step m row).completed = m.completed ∧
        (Core.step m row).failed = m.failed ∧
        (Core.step m row).sum_completed_amount = m.sum_completed_amount) ∧
      (Core.rowStatus row = "completed" →
        (Core.step m row).completed = m.completed + 1 ∧
        (Core.step m row).failed = m.failed) ∧
      (Core.rowStatus row = "failed" →
        (Core.step m row).failed = m.failed + 1 ∧
        (Core.step m row).completed = m.completed)) ∧
    (pyGetD row "status" "" = some st → pyGetD row "amount_cents" "0" = some a →
      pyStrip st ≠ "completed" → pyStrip st ≠ "failed" →
        Aggregator.process_transaction s row = some
          { s with
            total_rows := s.total_rows + 1
            transactions_processed := s.transactions_processed + 1
            sum_all_amount := s.sum_all_amount + (pyInt (pyStrip a)).getD 0 }) := by
  refine ⟨⟨?_, ?_, ?_⟩, ?_⟩
  · intro h1 h2
    simp [Core.coreStep_fields, Core.completedFlag, Core.failedFlag,
      Core.completedAmount, h1, h2]
  · intro h1
    have h2 : Core.rowStatus row ≠ "failed" := by
      rw [h1]; decide
    simp [Core.coreStep_fields, Core.completedFlag, Core.failedFlag, h1, h2]
  · intro h1
    have h2 : Core.rowStatus row ≠ "completed" := by
      rw [h1]; decide
    simp [Core.coreStep_fields, Core.completedFlag, Core.failedFlag, h1, h2]
  · intro hst hsa h1 h2
    simp [Aggregator.process_transaction, Reader.Transaction.amount_cents,
      Reader.Transaction.status, hst, hsa, h1, h2]

/-- C7, witness: the claim applied to the scenario-D record
(`status="pending"`, `amount_cents="300"`). -/
theorem claim_C7_witness :
    ((Core.step Metrics.init [("amount_cents", some "300"), ("status", some "pending")]).completed
        = Metrics.init.completed ∧
     (Core.step Metrics.init [("amount_cents", some "300"), ("status", some "pending")]).sum_all_amount
        = Metrics.init.sum_all_amount
            + Core.rowAmount [("amount_cents", some "300"), ("status", some "pending")]) ∧
    Aggregator.process_transaction Aggregator.AggState.init
        [("amount_cents", some "300"), ("status", some "pending")] = some
      { Aggregator.AggState.init with
        total_rows := Aggregator.AggState.init.total_rows + 1
        transactions_processed := Aggregator.AggState.init.transactions_processed + 1
        sum_all_amount := Aggregator.AggState.init.sum_all_amount
          + (pyInt (pyStrip "300")).getD 0 } := by
  have h := claim_C7_theorem Metrics.init
    [("amount_cents", some "300"), ("status", some "pending")]
    Aggregator.AggState.init "pending" "300"
  exact ⟨⟨(h.1.1 (by decide) (by decide)).2.2.1, (h.1.1 (by decide) (by decide)).2.1⟩,
    h.2 (by decide) (by decide) (by decide) (by decide)⟩

/-- The two status flags of a row can never both be 1. -/
theorem Core.flagSum_le_one (row : RawRecord) :
    Core.completedFlag row + Core.failedFlag row ≤ 1 := by
  simp only [Core.completedFlag, Core.failedFlag]
  split_ifs with h1 h2 <;> simp_all

/-- One `src/core.py` iteration preserves
`completed + failed ≤ total_rows`. -/
theorem Core.step_preserves_inv (m : Metrics) (row : RawRecord)
    (h : m.completed + m.failed ≤ m.total_rows) :
    (Core.step m row).completed + (Core.step m row).failed
      ≤ (Core.step m row).total_rows := by
  have hf := Core.flagSum_le_one row
  simp only [Core.coreStep_fields]
  omega

/-- The invariant holds after folding `src/core.py`'s loop from any state
that satisfies it. -/
theorem Core.foldl_preserves_inv (rows : List RawRecord) :
    ∀ m : Metrics, m.completed + m.failed ≤ m.total_rows →
      (rows.foldl Core.step m).completed + (rows.foldl Core.step m).failed
        ≤ (rows.foldl Core.step m).total_rows := by
  induction rows with
  | nil => intro m h; simpa using h
  | cons r rs ih =>
    intro m h
    simp only [List.foldl_cons]
    exact ih _ (Core.step_preserves_inv m r h)

/-- One successful `MetricsAggregator.process_transaction` call preserves
`completed + failed ≤ total_rows`. -/
theorem Aggregator.process_preserves_inv (s s' : Aggregator.AggState)
    (row : RawRecord)
    (hp : Aggregator.process_transaction s row = some s')
    (h : s.completed + s.failed ≤ s.total_rows) :
    s'.completed + s'.failed ≤ s'.total_rows := by
  unfold Aggregator.process_transaction at hp
  cases ha : Reader.Transaction.amount_cents row with
  | none => simp [ha] at hp
  | some amt =>
    cases hs : Reader.Transaction.status row with
    | none => simp [ha, hs] at hp
    | some st =>
      simp only [ha, hs, Option.bind_eq_bind, Option.some_bind] at hp
      split_ifs at hp <;>
        · simp only [Option.some.injEq] at hp
          subst hp
          simp
          omega

/-- C8: `completed_count + failed_count ≤ total_rows` holds for the result
of `src/core.py`'s `aggregate_transactions` on every input, is preserved by
every single `src/core.py` loop step, and is preserved by every successful
`MetricsAggregator.process_transaction` step. -/
theorem claim_C8_theorem (rows : List RawRecord) (m : Metrics)
    (row : RawRecord) (s s' : Aggregator.AggState) (r2 : RawRecord) :
    ((Core.aggregate_transactions rows).completed
        + (Core.aggregate_transactions rows).failed
        ≤ (Core.aggregate_transactions rows).total_rows) ∧
    (m.completed + m.failed ≤ m.total_rows →
      (Core.step m row).completed + (Core.step m row).failed
        ≤ (Core.step m row).total_rows) ∧
    (Aggregator.process_transaction s r2 = some s' →
      s.completed + s.failed ≤ s.total_rows →
      s'.completed + s'.failed ≤ s'.total_rows) :=
  ⟨Core.foldl_preserves_inv rows Metrics.init (by decide),
   Core.step_preserves_inv m row,
   fun hp h => Aggregator.process_preserves_inv s s' r2 hp h⟩

/-- C8, witness: the invariant checked through the theorem on the sample
input, a concrete step, and a concrete aggregator step. -/
theorem claim_C8_witness :
    (Core.aggregate_transactions sampleRows).completed
        + (Core.aggregate_transactions sampleRows).failed
        ≤ (Core.aggregate_transactions sampleRows).total_rows ∧
    (Core.step Metrics.init [("status", some "completed")]).completed
        + (Core.step Metrics.init [("status", some "completed")]).failed
        ≤ (Core.step Metrics.init [("status", some "completed")]).total_rows := by
  have h := claim_C8_theorem sampleRows Metrics.init [("status", some "completed")]
    Aggregator.AggState.init Aggregator.AggState.init [("status", some "completed")]
  exact ⟨h.1, h.2.1 (by decide)⟩

/-- C9: aggregation is order-independent — permuting the input records
leaves every field of the `src/core.py` result (including the derived
`avg_amount`) and every field of the `compute_report` result unchanged,
because each counter is a fold of per-record contributions by a
right-commutative step. -/
theorem claim_C9_theorem (l1 l2 : List RawRecord) (hp : l1.Perm l2) :
    Core.aggregate_transactions l1 = Core.aggregate_transactions l2 ∧
    Core.avg_amount (Core.aggregate_transactions l1)
      = Core.avg_amount (Core.aggregate_transactions l2) ∧
    Transactions.compute_report l1 = Transactions.compute_report l2 := by
  have h1 : Core.aggregate_transactions l1 = Core.aggregate_transactions l2 :=
    foldl_perm_eq Core.step Core.step_comm hp Metrics.init
  exact ⟨h1, by rw [h1],
    foldl_perm_eq Transactions.compute_report_step
      Transactions.compute_report_step_comm hp Transactions.TReport.init⟩

/-- C9, witness: the theorem applied to a concrete two-record swap. -/
theorem claim_C9_witness :
    Core.aggregate_transactions
        [[("amount_cents", some "1000"), ("status", some "completed")],
         [("amount_cents", some "foo"), ("status", some "failed")]]
      = Core.aggregate_transactions
        [[("amount_cents", some "foo"), ("status", some "failed")],
         [("amount_cents", some "1000"), ("status", some "completed")]] :=
  (claim_C9_theorem _ _
    (List.Perm.swap [("amount_cents", some "foo"), ("status", some "failed")]
      [("amount_cents", some "1000"), ("status", some "completed")] [])).1

/-- C10: `src/core.py` increments `invalid_amounts` exactly when the
stripped raw amount string is non-empty, differs from the literal `"0"`,
and coerces (via `_safe_int`) to 0 — so `"00"`, `"+0"` and `"-0"`, which
`int` parses successfully to 0, are nonetheless counted as invalid. -/
theorem claim_C10_theorem (m : Metrics) (row : RawRecord) :
    (Core.rowAmountRaw row ≠ "" → Core.rowAmount row = 0 →
      Core.rowAmountRaw row ≠ "0" →
      (Core.step m row).invalid_amounts = m.invalid_amounts + 1) ∧
    ((Core.rowAmountRaw row = "" ∨ Core.rowAmount row ≠ 0 ∨
        Core.rowAmountRaw row = "0") →
      (Core.step m row).invalid_amounts = m.invalid_amounts) ∧
    (pyInt "00" = some 0 ∧ pyInt "+0" = some 0 ∧ pyInt "-0" = some 0) ∧
    ((Core.step Metrics.init [("amount_cents", some "00")]).invalid_amounts = 1 ∧
     (Core.step Metrics.init [("amount_cents", some "+0")]).invalid_amounts = 1 ∧
     (Core.step Metrics.init [("amount_cents", some "-0")]).invalid_amounts = 1) := by
  refine ⟨?_, ?_, by decide, by decide⟩
  · intro h1 h2 h3
    simp [Core.coreStep_fields, Core.invalidFlag, h1, h2, h3]
  · intro h
    rcases h with h | h | h <;> simp [Core.coreStep_fields, Core.invalidFlag, h]

/-- C10, witness: the increment direction of the theorem at the concrete
input `"00"`, which parses to 0 yet is counted invalid. -/
theorem claim_C10_witness :
    (Core.step Metrics.init [("amount_cents", some "00")]).invalid_amounts
      = Metrics.init.invalid_amounts + 1 :=
  (claim_C10_theorem Metrics.init [("amount_cents", some "00")]).1
    (by decide) (by decide) (by decide)
